import Mathlib

/-!
Verification of the BigBasketScraper task-distribution and batch-persistence
engine (src/core/task_destribution/thread_task_destribution.py and
src/services/products_scraper.py) against its natural-language specification.

The Python code is shallowly embedded: queues become lists, the decorated
executors become total functions over an outcome type that distinguishes a
returned Python value from a raised exception, and the batch-saver thread
becomes a fuel-bounded state-transition loop fed by an explicit schedule of
concurrent arrivals.
-/

/-- A parsed product record as enqueued on the result queue by
ProductsScraper.parse_product_data: the natural key product_id plus an
abstract payload standing for all remaining fields, used to tell two records
with the same key apart. -/
structure ProdRec where
  product_id : Int
  payload : Nat
deriving DecidableEq

/-- A Python value as seen by the decorators of ThreadingBase: the booleans
True and False, None, an exception object (produced by the exception wrapper
from a raised exception), and any other truthy object. -/
inductive PyVal
  | pyBool (b : Bool)
  | pyNone
  | pyExc
  | pyOther
deriving DecidableEq

/-- What a raw (undecorated) executor body does on one task: return a Python
value or raise. -/
inductive RawOutcome
  | ret (v : PyVal)
  | raiseExc
deriving DecidableEq

/-- ThreadingBase.exception (thread_task_destribution.py lines 53-79) applied
to an executor without a return annotation: the initial result is None, the
body is attempted, and on a raise the result becomes the exception object
itself, which is then returned from the finally clause. -/
def exceptionWrap : RawOutcome → PyVal
  | .ret v => v
  | .raiseExc => .pyExc

/-- The success and failure counters of ThreadingBase (s_counter and
f_counter). -/
structure Counters where
  s : Nat
  f : Nat
deriving DecidableEq

/-- ThreadingBase.progress_logger (lines 89-104): the failure counter is
incremented when the wrapped call returns False or None, the success counter
when it returns True, and nothing otherwise.  The except branch of the
wrapper never fires for the composed executors because the method underneath
is already exception-wrapped and cannot raise. -/
def progressStep (c : Counters) : PyVal → Counters
  | .pyBool false => { c with f := c.f + 1 }
  | .pyNone => { c with f := c.f + 1 }
  | .pyBool true => { c with s := c.s + 1 }
  | _ => c

/-- One task as processed by the composed decorators progress_logger over
exception on scraping_executor. -/
def taskStep (c : Counters) (o : RawOutcome) : Counters :=
  progressStep c (exceptionWrap o)

/-- Counter state after a run processes every task of a list, each exactly
once, given the raw outcome of each task's executor body. -/
def runCounters (outs : List RawOutcome) : Counters :=
  outs.foldl taskStep { s := 0, f := 0 }

/-- Whether a task's wrapped outcome moves either counter: True, False and
None do; an exception object or any other truthy value does not. -/
def countsTowardTotal (o : RawOutcome) : Bool :=
  match exceptionWrap o with
  | .pyBool _ => true
  | .pyNone => true
  | _ => false

/-- Whether a task's wrapped outcome increments the success counter. -/
def isSuccessRes (o : RawOutcome) : Bool :=
  exceptionWrap o = PyVal.pyBool true

/-- Whether a task's wrapped outcome increments the failure counter. -/
def isFailureRes (o : RawOutcome) : Bool :=
  exceptionWrap o = PyVal.pyBool false ∨ exceptionWrap o = PyVal.pyNone

/-- Python truthiness of the values a decorated pipeline can yield. -/
def pyTruthy : PyVal → Bool
  | .pyBool b => b
  | .pyNone => false
  | .pyExc => true
  | .pyOther => true

/-- ThreadingBase.run (lines 251-266): the exception-wrapped
execution_pipeline yields a Python value (never a raise); run tests it for
truthiness and returns False on falsy, True otherwise. -/
def runMethod (pipelineResult : PyVal) : PyVal :=
  if pyTruthy pipelineResult then .pyBool true else .pyBool false

/-- The deduplication loop of ProductsScraper.saving_executor
(products_scraper.py lines 307-314): walk the batch, keep a record only when
its product_id has not been seen yet, remembering seen keys in the
accumulator. -/
def saving_dedup : List ProdRec → List Int → List ProdRec
  | [], _ => []
  | r :: rs, seen =>
    if r.product_id ∈ seen then saving_dedup rs seen
    else r :: saving_dedup rs (r.product_id :: seen)

/-- The batch that ProductsScraper.saving_executor forwards to the storage
sink db.save_products after deduplication. -/
def saving_batch (results : List ProdRec) : List ProdRec :=
  saving_dedup results []

/-- ProductsScraper.saving_executor (lines 298-329), with the storage sink
abstracted as a boolean-returning function on the deduplicated batch. -/
def saving_executor (sink : List ProdRec → Bool) (results : List ProdRec) : Bool :=
  sink (saving_batch results)

-- Helper lemmas for the counter model.

/-- Folding taskStep over a list adds, to each counter, the number of
outcomes of the matching kind. -/
theorem foldl_taskStep_spec (outs : List RawOutcome) (c : Counters) :
    (outs.foldl taskStep c).s = c.s + outs.countP isSuccessRes ∧
    (outs.foldl taskStep c).f = c.f + outs.countP isFailureRes := by
  induction outs generalizing c with
  | nil => simp
  | cons o os ih =>
    rcases ih (taskStep c o) with ⟨hs, hf⟩
    constructor
    · rw [List.foldl_cons, hs, List.countP_cons]
      cases o with
      | raiseExc => simp [taskStep, exceptionWrap, progressStep, isSuccessRes]
      | ret v =>
        cases v with
        | pyBool b =>
          cases b <;>
            simp [taskStep, exceptionWrap, progressStep, isSuccessRes] <;> omega
        | pyNone => simp [taskStep, exceptionWrap, progressStep, isSuccessRes]
        | pyExc => simp [taskStep, exceptionWrap, progressStep, isSuccessRes]
        | pyOther => simp [taskStep, exceptionWrap, progressStep, isSuccessRes]
    · rw [List.foldl_cons, hf, List.countP_cons]
      cases o with
      | raiseExc => simp [taskStep, exceptionWrap, progressStep, isFailureRes]
      | ret v =>
        cases v with
        | pyBool b =>
          cases b <;>
            simp [taskStep, exceptionWrap, progressStep, isFailureRes] <;> omega
        | pyNone =>
          simp [taskStep, exceptionWrap, progressStep, isFailureRes]
          omega
        | pyExc => simp [taskStep, exceptionWrap, progressStep, isFailureRes]
        | pyOther => simp [taskStep, exceptionWrap, progressStep, isFailureRes]

/-- Pointwise: an outcome counts toward the total exactly when it counts as a
success or as a failure, and never as both. -/
theorem counts_partition (o : RawOutcome) :
    (countsTowardTotal o = (isSuccessRes o || isFailureRes o)) ∧
    ¬ (isSuccessRes o = true ∧ isFailureRes o = true) := by
  cases o with
  | raiseExc => simp [countsTowardTotal, isSuccessRes, isFailureRes, exceptionWrap]
  | ret v =>
    cases v with
    | pyBool b =>
      cases b <;> simp [countsTowardTotal, isSuccessRes, isFailureRes, exceptionWrap]
    | pyNone => simp [countsTowardTotal, isSuccessRes, isFailureRes, exceptionWrap]
    | pyExc => simp [countsTowardTotal, isSuccessRes, isFailureRes, exceptionWrap]
    | pyOther => simp [countsTowardTotal, isSuccessRes, isFailureRes, exceptionWrap]

/-- countP of the union of the two disjoint counting predicates is the sum of
their counts. -/
theorem countP_total_eq (outs : List RawOutcome) :
    outs.countP countsTowardTotal =
      outs.countP isSuccessRes + outs.countP isFailureRes := by
  induction outs with
  | nil => simp
  | cons o os ih =>
    rcases counts_partition o with ⟨hu, hd⟩
    rw [List.countP_cons, List.countP_cons, List.countP_cons, ih, hu]
    cases hs : isSuccessRes o <;> cases hf : isFailureRes o <;> simp_all <;> omega

-- Helper lemmas for the deduplication loop.

/-- Every record kept by the dedup loop has a key outside the seen set, and
the kept keys are mutually distinct. -/
theorem saving_dedup_nodup (rs : List ProdRec) (seen : List Int) :
    ((saving_dedup rs seen).map ProdRec.product_id).Nodup ∧
    ∀ r ∈ saving_dedup rs seen, r.product_id ∉ seen := by
  induction rs generalizing seen with
  | nil => simp [saving_dedup]
  | cons r rs ih =>
    by_cases hmem : r.product_id ∈ seen
    · rcases ih seen with ⟨hnd, hout⟩
      simp only [saving_dedup, if_pos hmem]
      exact ⟨hnd, hout⟩
    · rcases ih (r.product_id :: seen) with ⟨hnd, hout⟩
      simp only [saving_dedup, if_neg hmem]
      refine ⟨?_, ?_⟩
      · simp only [List.map_cons, List.nodup_cons]
        refine ⟨?_, hnd⟩
        intro hx
        rcases List.mem_map.mp hx with ⟨x, hxmem, hxid⟩
        exact (hout x hxmem) (by simp [hxid])
      · intro x hx
        rcases List.mem_cons.mp hx with hx1 | hx2
        · subst hx1; exact hmem
        · intro hxs
          exact (hout x hx2) (List.mem_cons_of_mem _ hxs)

/-- For a key not already seen, the record the dedup loop keeps for that key
is exactly the first record of the batch carrying it. -/
theorem saving_dedup_find (rs : List ProdRec) (seen : List Int) (k : Int)
    (hk : k ∉ seen) :
    (saving_dedup rs seen).find? (fun r => r.product_id = k) =
      rs.find? (fun r => r.product_id = k) := by
  induction rs generalizing seen with
  | nil => simp [saving_dedup]
  | cons r rs ih =>
    by_cases hmem : r.product_id ∈ seen
    · have hne : ¬ r.product_id = k := fun h => hk (h ▸ hmem)
      have he := ih seen hk
      simp only [saving_dedup, if_pos hmem]
      simp [List.find?_cons, hne, he]
    · by_cases hkey : r.product_id = k
      · simp only [saving_dedup, if_neg hmem]
        simp [List.find?_cons, hkey]
      · have hk2 : k ∉ r.product_id :: seen := by
          intro hx
          rcases List.mem_cons.mp hx with h1 | h2
          · exact hkey h1.symm
          · exact hk h2
        have he := ih (r.product_id :: seen) hk2
        simp only [saving_dedup, if_neg hmem]
        simp [List.find?_cons, hkey, he]

-- Claim C1.

/-- Claim C1 counterexample: a run over one task whose executor body raises
ends with success + failure = 0, not 1: the exception wrapper turns the raise
into an exception object and progress_logger increments neither counter, so
success + failure falls short of the task total. -/
theorem counters_miss_raised_task :
    (runCounters [RawOutcome.raiseExc]).s + (runCounters [RawOutcome.raiseExc]).f = 0 ∧
    [RawOutcome.raiseExc].length = 1 := by decide

/-- Claim C1 (amended): the success counter counts exactly the tasks whose
wrapped outcome is the boolean True, the failure counter exactly those whose
wrapped outcome is False or None; a task whose executor raises (or returns
any other truthy non-True value) moves neither counter, so success + failure
equals the number of tasks with True, False or None outcomes, which is at
most the task total. -/
theorem counters_count_settled_tasks (outs : List RawOutcome) :
    (runCounters outs).s = outs.countP isSuccessRes ∧
    (runCounters outs).f = outs.countP isFailureRes ∧
    (runCounters outs).s + (runCounters outs).f = outs.countP countsTowardTotal ∧
    outs.countP countsTowardTotal ≤ outs.length := by
  rcases foldl_taskStep_spec outs { s := 0, f := 0 } with ⟨hs, hf⟩
  refine ⟨?_, ?_, ?_, ?_⟩
  · simpa using hs
  · simpa using hf
  · rw [countP_total_eq]
    have hs2 : (runCounters outs).s = outs.countP isSuccessRes := by simpa using hs
    have hf2 : (runCounters outs).f = outs.countP isFailureRes := by simpa using hf
    omega
  · exact List.countP_le_length _

-- Claim C2.

/-- Claim C2 counterexample: a batch with two records sharing key 1 is
deduplicated to the first record enqueued, not the last: the batch handed to
the sink is the singleton of the first record and does not contain the
later one. -/
theorem dedup_keeps_first_not_last :
    saving_batch [{ product_id := 1, payload := 0 }, { product_id := 1, payload := 1 }] =
      [{ product_id := 1, payload := 0 }] ∧
    ({ product_id := 1, payload := 1 } : ProdRec) ∉
      saving_batch [{ product_id := 1, payload := 0 }, { product_id := 1, payload := 1 }] := by
  decide

/-- Claim C2 (amended): saving_executor hands the sink exactly one record per
distinct product_id, and for each key the record kept is the first one
enqueued among the duplicates: the kept keys are mutually distinct, and
looking any key up in the deduplicated batch yields the same record as
looking it up in the original batch front to back. -/
theorem dedup_one_record_per_key_first_wins (results : List ProdRec) :
    (∀ sink : List ProdRec → Bool,
      saving_executor sink results = sink (saving_batch results)) ∧
    ((saving_batch results).map ProdRec.product_id).Nodup ∧
    (∀ k : Int, (saving_batch results).find? (fun r => r.product_id = k) =
      results.find? (fun r => r.product_id = k)) := by
  refine ⟨fun _ => rfl, ?_, ?_⟩
  · exact (saving_dedup_nodup results []).1
  · intro k
    exact saving_dedup_find results [] k (by simp)

-- Claim C9.

/-- Claim C9 counterexample: a run over two tasks whose executor bodies both
raise leaves the failure counter at 0: the errors are caught but are not
converted into failure-counter increments. -/
theorem raised_errors_not_counted_as_failures :
    (runCounters [RawOutcome.raiseExc, RawOutcome.raiseExc]).f = 0 := by decide

/-- Claim C9 (amended): the top-level run returns a boolean and never raises
(the exception-wrapped pipeline yields a value, which run maps onto True or
False), and every per-task error is caught at the unit boundary, but a raised
exception increments no counter at all: it is not an isFailureRes outcome,
and the task step leaves the counters unchanged on it. -/
theorem run_returns_bool_and_swallows_errors (pr : PyVal) (outs : List RawOutcome) :
    (∃ b : Bool, runMethod pr = PyVal.pyBool b) ∧
    (runCounters outs).f = outs.countP isFailureRes ∧
    isFailureRes RawOutcome.raiseExc = false ∧
    (∀ c : Counters, taskStep c RawOutcome.raiseExc = c) := by
  refine ⟨?_, ?_, by decide, fun c => rfl⟩
  · by_cases h : pyTruthy pr = true
    · exact ⟨true, by simp [runMethod, h]⟩
    · exact ⟨false, by simp [runMethod, h]⟩
  · simpa using (foldl_taskStep_spec outs { s := 0, f := 0 }).2

-- The batch-saver loop of ThreadingBase.save_results and the final phase of
-- ThreadingBase.execution_pipeline.

/-- Shared state the saver loop observes: the task-queue size, the result
queue contents in FIFO order, and the stop flag. -/
structure SaverState where
  tasks : Nat
  results : List ProdRec
  stopped : Bool
deriving DecidableEq

/-- What the concurrent worker threads did between two saver iterations:
records appended to the result queue and the new task-queue size. -/
structure SaverArrival where
  newResults : List ProdRec
  tasksLeft : Nat
deriving DecidableEq

/-- Apply the (possibly absent) arrival of one iteration to the shared
state. -/
def applyArrival (st : SaverState) : Option SaverArrival → SaverState
  | none => st
  | some arr => { st with tasks := arr.tasksLeft, results := st.results ++ arr.newResults }

/-- The threshold branch of the loop body of ThreadingBase.save_results with
force_save false (thread_task_destribution.py lines 143-148): exactly
save_result_limit records move from the result queue into the buffer when the
queue holds at least that many, else nothing moves.  Returns the buffer and
the remaining queue. -/
def thresholdLoad (limit : Nat) (toSave results : List ProdRec) :
    List ProdRec × List ProdRec :=
  if limit ≤ results.length then (toSave ++ results.take limit, results.drop limit)
  else (toSave, results)

/-- The flush branch of the loop body (lines 150-157): a nonempty buffer is
handed to the saving executor and the stop flag becomes set when the executor
reports False; an empty buffer flushes nothing.  Returns the new stop flag
and the batches flushed. -/
def flushBuf (sink : List ProdRec → Bool) (stopped : Bool) (buf : List ProdRec) :
    Bool × List (List ProdRec) :=
  if buf.isEmpty then (stopped, [])
  else (if sink buf then stopped else true, [buf])

/-- One iteration of the body of the loop in ThreadingBase.save_results with
force_save false (lines 140-169): the threshold load, then the flush of a
nonempty buffer, then the break check of lines 159-161 (both queues empty),
else the drain branch of lines 163-168 which moves up to save_result_limit
remaining records into the buffer once the task queue is empty.  Returns the
new state, the carried buffer, the batches flushed this iteration, and
whether the loop broke. -/
def saverStep (sink : List ProdRec → Bool) (limit : Nat) (st : SaverState)
    (toSave : List ProdRec) : SaverState × List ProdRec × List (List ProdRec) × Bool :=
  let L := thresholdLoad limit toSave st.results
  let F := flushBuf sink st.stopped L.1
  if st.tasks = 0 ∧ L.2.isEmpty then
    ({ tasks := st.tasks, results := L.2, stopped := F.1 }, [], F.2, true)
  else if st.tasks = 0 then
    ({ tasks := st.tasks, results := L.2.drop limit, stopped := F.1 },
      L.2.take limit, F.2, false)
  else
    ({ tasks := st.tasks, results := L.2, stopped := F.1 }, [], F.2, false)

/-- The saver loop itself, fuel-bounded: each iteration first absorbs the
scheduled concurrent arrival, then runs one body iteration; the loop stops
when the body breaks (both queues observed empty) or the fuel runs out.
Returns the final state, every batch flushed by the loop in order, and
whether the loop reached its break. -/
def saverRun (sink : List ProdRec → Bool) (limit : Nat) :
    Nat → List SaverArrival → SaverState → List ProdRec →
      SaverState × List (List ProdRec) × Bool
  | 0, _, st, _ => (st, [], false)
  | fuel + 1, sched, st, toSave =>
    let step := saverStep sink limit (applyArrival st sched.head?) toSave
    if step.2.2.2 then (step.1, step.2.2.1, true)
    else
      let rest := saverRun sink limit fuel sched.tail step.1 step.2.1
      (rest.1, step.2.2.1 ++ rest.2.1, rest.2.2)

/-- The loop guard of ThreadingBase.scraping_consumer (line 114): a consumer
takes a further task only while the task queue is nonempty and the stop flag
is not set. -/
def consumerTakesTask (tasksNonempty stopped : Bool) : Bool :=
  tasksNonempty && !stopped

/-- Outcome of the final phase of ThreadingBase.execution_pipeline
(lines 234-249): the batch handed to saving_executor by the forced final
flush, if any, the result queue afterwards, and the returned verdict. -/
structure PipelineEnd where
  finalBatch : Option (List ProdRec)
  resultsAfter : List ProdRec
  verdict : Bool
deriving DecidableEq

/-- Final phase of ThreadingBase.execution_pipeline after all pool threads
have been joined (lines 234-249): if the result queue is nonempty, drain it
completely into one batch and hand that batch to saving_executor with no size
threshold; then return False exactly when the task queue still has items and
the stop flag is set, True otherwise. -/
def pipeline_end (results : List ProdRec) (tasksRemaining : Nat) (stopped : Bool) :
    PipelineEnd :=
  { finalBatch := if results.isEmpty then none else some results
    resultsAfter := []
    verdict := if tasksRemaining ≠ 0 ∧ stopped = true then false else true }

-- Step-level lemmas about the saver loop.

/-- The saver body never touches the task queue. -/
theorem saverStep_tasks (sink : List ProdRec → Bool) (limit : Nat)
    (st : SaverState) (toSave : List ProdRec) :
    (saverStep sink limit st toSave).1.tasks = st.tasks := by
  simp only [saverStep]
  split
  · rfl
  · split <;> rfl

/-- The saver body sets the stop flag exactly when it was already set or a
flush of this iteration made the sink report failure. -/
theorem saverStep_stopped (sink : List ProdRec → Bool) (limit : Nat)
    (st : SaverState) (toSave : List ProdRec) :
    ((saverStep sink limit st toSave).1.stopped = true ↔
      st.stopped = true ∨
        ∃ b ∈ (saverStep sink limit st toSave).2.2.1, sink b = false) := by
  have hflush : ∀ buf : List ProdRec,
      ((flushBuf sink st.stopped buf).1 = true ↔
        st.stopped = true ∨ ∃ b ∈ (flushBuf sink st.stopped buf).2, sink b = false) := by
    intro buf
    by_cases hempty : buf.isEmpty
    · simp [flushBuf, hempty]
    · by_cases hsink : sink buf <;> simp [flushBuf, hempty, hsink]
  simp only [saverStep]
  split
  · exact hflush _
  · split
    · exact hflush _
    · exact hflush _

/-- When the saver body breaks, both queues are empty. -/
theorem saverStep_break_drained (sink : List ProdRec → Bool) (limit : Nat)
    (st : SaverState) (toSave : List ProdRec) :
    (saverStep sink limit st toSave).2.2.2 = true →
      (saverStep sink limit st toSave).1.results = [] ∧
        (saverStep sink limit st toSave).1.tasks = 0 := by
  simp only [saverStep]
  split
  · rename_i hcond
    intro _
    exact ⟨List.isEmpty_iff.mp hcond.2, hcond.1⟩
  · split <;> intro h <;> cases h

/-- Every batch the saver body flushes holds at most the carried buffer plus
one threshold load of exactly the limit. -/
theorem saverStep_flush_bound (sink : List ProdRec → Bool) (limit : Nat)
    (st : SaverState) (toSave : List ProdRec) :
    ∀ b ∈ (saverStep sink limit st toSave).2.2.1,
      b.length ≤ toSave.length + limit := by
  have hload : (thresholdLoad limit toSave st.results).1.length ≤
      toSave.length + limit := by
    simp only [thresholdLoad]
    split
    · rw [List.length_append]
      have := List.length_take_le limit st.results
      omega
    · simp
  have hbuf : ∀ x ∈ (flushBuf sink st.stopped (thresholdLoad limit toSave st.results).1).2,
      x.length ≤ toSave.length + limit := by
    intro x hx
    simp only [flushBuf] at hx
    split at hx
    · cases hx
    · rcases List.mem_singleton.mp hx with rfl
      exact hload
  intro b
  simp only [saverStep]
  split
  · intro hb; exact hbuf b hb
  · split <;> intro hb <;> exact hbuf b hb

/-- The buffer the saver body carries into the next iteration holds at most
the limit. -/
theorem saverStep_toSave_bound (sink : List ProdRec → Bool) (limit : Nat)
    (st : SaverState) (toSave : List ProdRec) :
    (saverStep sink limit st toSave).2.1.length ≤ limit := by
  simp only [saverStep]
  split
  · simp
  · split
    · exact List.length_take_le limit _
    · simp

/-- Absorbing an arrival never changes the stop flag. -/
theorem applyArrival_stopped (st : SaverState) (a : Option SaverArrival) :
    (applyArrival st a).stopped = st.stopped := by
  cases a <;> rfl

-- Run-level lemmas about the saver loop.

/-- Over a whole saver run, the stop flag ends set exactly when it started set
or some flushed batch made the sink report failure. -/
theorem saverRun_stopped (sink : List ProdRec → Bool) (limit fuel : Nat)
    (sched : List SaverArrival) (st : SaverState) (toSave : List ProdRec) :
    ((saverRun sink limit fuel sched st toSave).1.stopped = true ↔
      st.stopped = true ∨
        ∃ b ∈ (saverRun sink limit fuel sched st toSave).2.1, sink b = false) := by
  induction fuel generalizing sched st toSave with
  | zero => simp [saverRun]
  | succ fuel ih =>
    have hstep := saverStep_stopped sink limit (applyArrival st sched.head?) toSave
    rw [applyArrival_stopped] at hstep
    simp only [saverRun]
    split
    · exact hstep
    · have hmix := ih sched.tail (saverStep sink limit (applyArrival st sched.head?) toSave).1
        (saverStep sink limit (applyArrival st sched.head?) toSave).2.1
      simp only [List.mem_append]
      rw [hmix, hstep]
      constructor
      · rintro ((hstp | ⟨b, hb, hfail⟩) | ⟨b, hb, hfail⟩)
        · exact Or.inl hstp
        · exact Or.inr ⟨b, Or.inl hb, hfail⟩
        · exact Or.inr ⟨b, Or.inr hb, hfail⟩
      · rintro (hstp | ⟨b, hb | hb, hfail⟩)
        · exact Or.inl (Or.inl hstp)
        · exact Or.inl (Or.inr ⟨b, hb, hfail⟩)
        · exact Or.inr ⟨b, hb, hfail⟩

/-- When the saver run reaches its break, both queues are drained. -/
theorem saverRun_drained (sink : List ProdRec → Bool) (limit fuel : Nat)
    (sched : List SaverArrival) (st : SaverState) (toSave : List ProdRec) :
    (saverRun sink limit fuel sched st toSave).2.2 = true →
      (saverRun sink limit fuel sched st toSave).1.results = [] ∧
        (saverRun sink limit fuel sched st toSave).1.tasks = 0 := by
  induction fuel generalizing sched st toSave with
  | zero => intro h; cases h
  | succ fuel ih =>
    simp only [saverRun]
    split
    · rename_i hbrk
      intro _
      exact saverStep_break_drained sink limit (applyArrival st sched.head?) toSave hbrk
    · exact ih sched.tail _ _

/-- Every batch a saver run flushes holds at most the incoming buffer plus
one threshold load, and every later batch at most two threshold loads. -/
theorem saverRun_flush_bound (sink : List ProdRec → Bool) (limit fuel : Nat)
    (sched : List SaverArrival) (st : SaverState) (toSave : List ProdRec)
    (h : toSave.length ≤ limit) :
    ∀ b ∈ (saverRun sink limit fuel sched st toSave).2.1, b.length ≤ 2 * limit := by
  induction fuel generalizing sched st toSave with
  | zero => simp [saverRun]
  | succ fuel ih =>
    simp only [saverRun]
    split
    · intro b hb
      have := saverStep_flush_bound sink limit (applyArrival st sched.head?) toSave b hb
      omega
    · intro b hb
      rcases List.mem_append.mp hb with hb1 | hb2
      · have := saverStep_flush_bound sink limit (applyArrival st sched.head?) toSave b hb1
        omega
      · exact ih sched.tail _ _ (saverStep_toSave_bound sink limit _ toSave) b hb2

/-- While the task queue is nonempty, the saver body never reaches its break:
both exit conditions of lines 159-161 require the observed task-queue size to
be zero. -/
theorem saverStep_no_break_of_tasks (sink : List ProdRec → Bool) (limit : Nat)
    (st : SaverState) (toSave : List ProdRec) (h : st.tasks ≠ 0) :
    (saverStep sink limit st toSave).2.2.2 = false := by
  have h2 : ¬ (st.tasks = 0 ∧ (thresholdLoad limit toSave st.results).2.isEmpty = true) := by
    intro hc
    exact h hc.1
  simp only [saverStep, if_neg h2, if_neg h]

/-- When the task queue starts nonempty and every scheduled arrival leaves it
nonzero (as happens once the stop flag halts the consumers, which are the
only readers of the task queue), the saver loop never reaches its break,
however much fuel it is given: it never exits. -/
theorem saverRun_never_exits (sink : List ProdRec → Bool) (limit fuel : Nat)
    (sched : List SaverArrival) (st : SaverState) (toSave : List ProdRec)
    (hsched : ∀ arr ∈ sched, arr.tasksLeft ≠ 0) (hst : st.tasks ≠ 0) :
    (saverRun sink limit fuel sched st toSave).2.2 = false := by
  induction fuel generalizing sched st toSave with
  | zero => rfl
  | succ fuel ih =>
    have h0 : (applyArrival st sched.head?).tasks ≠ 0 := by
      cases sched with
      | nil => exact hst
      | cons arr rest => exact hsched arr (List.mem_cons_self arr rest)
    have hbrk := saverStep_no_break_of_tasks sink limit
      (applyArrival st sched.head?) toSave h0
    simp only [saverRun, hbrk]
    have h1 : (saverStep sink limit (applyArrival st sched.head?) toSave).1.tasks ≠ 0 := by
      rw [saverStep_tasks]
      exact h0
    have h2 : ∀ arr ∈ sched.tail, arr.tasksLeft ≠ 0 := by
      intro arr harr
      exact hsched arr (List.mem_of_mem_tail harr)
    simpa using ih sched.tail _ _ h2 h1

-- Claim C4.

/-- Claim C4 counterexample: with limit 1, one unconsumed task, one queued
record and a sink that reports failure, the flush of the record sets the stop
flag, yet after twenty further iterations the loop has still not exited: its
only break needs the task queue observed empty, which stopped consumers never
make true (saverRun_never_exits extends this to every fuel), so the saver
does not finish draining and exit as the claim states. -/
theorem saver_hangs_after_failure_with_tasks_left :
    (saverRun (fun _ => false) 1 20 []
      { tasks := 1, results := [{ product_id := 9, payload := 0 }],
        stopped := false } []).1.stopped = true ∧
    (saverRun (fun _ => false) 1 20 []
      { tasks := 1, results := [{ product_id := 9, payload := 0 }],
        stopped := false } []).2.2 = false ∧
    (saverRun (fun _ => false) 1 20 []
      { tasks := 1, results := [{ product_id := 9, payload := 0 }],
        stopped := false } []).2.1 = [[{ product_id := 9, payload := 0 }]] := by
  decide

/-- Claim C4 (amended): over any saver run, the stop flag ends set exactly
when it started set or the sink reported failure for some flushed batch (with
the flag initially clear, a sink failure is the only way it becomes set), and
a set stop flag makes the consumer guard refuse to take any further task; a
sink failure does not end the loop, whose only exit observes both queues
empty — so IF the saver exits, it has drained both queues, but when tasks
remain unconsumed (the scenario of the claim) the halted consumers keep the
task queue nonzero and the saver never exits at all, for any amount of fuel:
it does not finish draining and then exit. -/
theorem saver_failure_sets_stop_but_never_exits (sink : List ProdRec → Bool)
    (limit fuel : Nat) (sched : List SaverArrival) (st : SaverState)
    (toSave : List ProdRec) :
    ((saverRun sink limit fuel sched st toSave).1.stopped = true ↔
      st.stopped = true ∨
        ∃ b ∈ (saverRun sink limit fuel sched st toSave).2.1, sink b = false) ∧
    ((saverRun sink limit fuel sched st toSave).2.2 = true →
      (saverRun sink limit fuel sched st toSave).1.results = [] ∧
        (saverRun sink limit fuel sched st toSave).1.tasks = 0) ∧
    ((∀ arr ∈ sched, arr.tasksLeft ≠ 0) → st.tasks ≠ 0 →
      (saverRun sink limit fuel sched st toSave).2.2 = false) ∧
    (∀ tasksNonempty : Bool, consumerTakesTask tasksNonempty true = false) := by
  refine ⟨saverRun_stopped sink limit fuel sched st toSave,
    saverRun_drained sink limit fuel sched st toSave,
    saverRun_never_exits sink limit fuel sched st toSave, ?_⟩
  intro t
  cases t <;> rfl

-- Claim C7.

/-- Six records with pairwise distinct keys, used to exhibit an oversized
periodic flush. -/
def sixRecs : List ProdRec :=
  [{ product_id := 1, payload := 1 }, { product_id := 2, payload := 2 },
   { product_id := 3, payload := 3 }, { product_id := 4, payload := 4 },
   { product_id := 5, payload := 5 }, { product_id := 6, payload := 6 }]

/-- Three records with pairwise distinct keys, used to exhibit an oversized
final forced flush. -/
def threeRecs : List ProdRec :=
  [{ product_id := 7, payload := 7 }, { product_id := 8, payload := 8 },
   { product_id := 9, payload := 9 }]

/-- Claim C7 counterexample: with save_result_limit 2, an empty task queue
and six queued records, the periodic loop (no forced flush involved) flushes
batches of sizes 2 and 4: the drain branch loads two records into the buffer
and the next iteration's threshold branch adds two more before flushing, so a
periodic batch holds 4 records, exceeding the limit of 2.  And the final
forced flush does not differ only by being smaller: with three records left
at run end it hands the saving executor a batch of 3, larger than the
limit of 2. -/
theorem periodic_flush_exceeds_limit :
    ((saverRun (fun _ => true) 2 10 []
        { tasks := 0, results := sixRecs, stopped := false } []).2.1.map
      List.length) = [2, 4] ∧ ¬ ((4 : Nat) ≤ 2) ∧
    (pipeline_end threeRecs 0 false).finalBatch = some threeRecs ∧
    threeRecs.length = 3 ∧ ¬ ((3 : Nat) ≤ 2) := by decide

/-- Claim C7 (amended): every batch passed to the saving executor by the
periodic loop holds at most twice save_result_limit records, and only that
doubled bound holds: the carried buffer never exceeds one drain-branch load
of at most the limit, and a flush adds at most one threshold load of exactly
the limit on top of it.  The final forced flush observes no size threshold in
either direction: it hands the saving executor the entire remaining result
queue, however large or small. -/
theorem periodic_flush_at_most_twice_limit (sink : List ProdRec → Bool)
    (limit fuel : Nat) (sched : List SaverArrival) (st : SaverState)
    (toSave : List ProdRec) (h : toSave.length ≤ limit) :
    (∀ b ∈ (saverRun sink limit fuel sched st toSave).2.1, b.length ≤ 2 * limit) ∧
    (∀ (res : List ProdRec) (tr : Nat) (stp : Bool), res ≠ [] →
      (pipeline_end res tr stp).finalBatch = some res) := by
  refine ⟨saverRun_flush_bound sink limit fuel sched st toSave h, ?_⟩
  intro res tr stp hres
  have hne : res.isEmpty = false := by
    cases res with
    | nil => exact absurd rfl hres
    | cons a as => rfl
  simp [pipeline_end, hne]

/-- Claim C7 witness: the doubled bound at the four-record batch the
oversized-flush run hands to the saving executor, and the threshold-free
final flush at the three-record queue. -/
theorem periodic_flush_at_most_twice_limit_holds :
    ([{ product_id := 3, payload := 3 }, { product_id := 4, payload := 4 },
      { product_id := 5, payload := 5 },
      ({ product_id := 6, payload := 6 } : ProdRec)]).length ≤ 2 * 2 ∧
    (pipeline_end threeRecs 0 false).finalBatch = some threeRecs :=
  ⟨(periodic_flush_at_most_twice_limit (fun _ => true) 2 10 []
      { tasks := 0, results := sixRecs, stopped := false } [] (by decide)).1
    [{ product_id := 3, payload := 3 }, { product_id := 4, payload := 4 },
     { product_id := 5, payload := 5 }, { product_id := 6, payload := 6 }]
    (by decide),
   (periodic_flush_at_most_twice_limit (fun _ => true) 2 10 []
      { tasks := 0, results := sixRecs, stopped := false } [] (by decide)).2
    threeRecs 0 false (by decide)⟩

-- Claim C3.

/-- Claim C3: once the pool threads are joined, every record still in the
result queue is put into the single forced final batch handed to
saving_executor, whatever the stop flag and the task queue hold, and the
result queue is empty afterwards: no queued record is dropped. -/
theorem final_flush_passes_every_record (results : List ProdRec)
    (tasksRemaining : Nat) (stopped : Bool) (r : ProdRec) (hr : r ∈ results) :
    (∃ batch, (pipeline_end results tasksRemaining stopped).finalBatch = some batch ∧
      r ∈ batch) ∧
    (pipeline_end results tasksRemaining stopped).resultsAfter = [] := by
  refine ⟨⟨results, ?_, hr⟩, rfl⟩
  have hne : results.isEmpty = false := by
    cases results with
    | nil => cases hr
    | cons a as => rfl
  simp [pipeline_end, hne]

/-- Claim C3 witness: one queued record with the stop flag set and tasks
remaining still reaches the forced final batch. -/
theorem final_flush_passes_every_record_holds :
    (∃ batch,
      (pipeline_end [{ product_id := 7, payload := 0 }] 3 true).finalBatch = some batch ∧
        ({ product_id := 7, payload := 0 } : ProdRec) ∈ batch) ∧
    (pipeline_end [{ product_id := 7, payload := 0 }] 3 true).resultsAfter = [] :=
  final_flush_passes_every_record [{ product_id := 7, payload := 0 }] 3 true
    { product_id := 7, payload := 0 } (by decide)

-- Claim C8.

/-- Claim C8: the pipeline returns False exactly when the task queue still has
unconsumed items and the stop flag is set; in every other terminal condition
it returns True. -/
theorem pipeline_verdict_false_iff (results : List ProdRec)
    (tasksRemaining : Nat) (stopped : Bool) :
    ((pipeline_end results tasksRemaining stopped).verdict = false ↔
      tasksRemaining ≠ 0 ∧ stopped = true) := by
  by_cases h : tasksRemaining ≠ 0 ∧ stopped = true <;> simp [pipeline_end, h]

-- The page-fetching loop of ProductsScraper.scraping_executor.

/-- Outcome of one request attempt for one page, as the retry loop of
scraping_executor sees it.  noContent is a 204 response, breaking out of the
attempts before the page-count assignment.  httpFailed is any raise before
the line-279 assignment: a non-200 status (line 274) or a body-decode error
(line 277); last_page is untouched.  parseFailed is a 200 response whose
payload makes the exception-wrapped parse_product_data return the exception
object: line 279 assigns that non-int to last_page before the isinstance
check at line 282 raises into the retry branch.  parsedOk is a 200 response
parsed to an int page count (Python also lets the bool False through the
isinstance check as the int 0), assigned to last_page before the success
break. -/
inductive FetchOutcome
  | noContent
  | httpFailed
  | parseFailed
  | parsedOk (lastPage : Int)
deriving DecidableEq

/-- What the retry loop ends with for one page: the budget ran out (the for
loop's else branch logs max retries), a 204 broke out of the attempts, or an
attempt parsed the page and reported a page count. -/
inductive PageResult
  | exhausted
  | skipped204
  | parsed (lastPage : Int)
deriving DecidableEq

/-- The value held by the last_page variable of scraping_executor: an int, or
the non-int exception object a parse failure stored at line 279. -/
inductive LastPage
  | intVal (n : Int)
  | excVal
deriving DecidableEq

/-- The retry budget of ProductsScraper (products_scraper.py line 47). -/
def max_retries : Nat := 5

/-- The retry loop of scraping_executor for one page (lines 265-289), driven
by an oracle giving the outcome of each attempt and threading the last_page
variable: the first component counts requests issued, the second counts
backoff sleeps (one after every failed attempt), the third is the page's
result, and the fourth the last_page value after the loop.  A 204 breaks with
last_page untouched, a transport failure retries with last_page untouched, a
parse failure stores the non-int exception object in last_page and retries,
and a parsed page stores its int count and breaks.  budget is the number of
attempts left and a the index of the next attempt. -/
def attemptLoop (fetch : Nat → Nat → FetchOutcome) (page : Nat) :
    Nat → Nat → LastPage → Nat × Nat × PageResult × LastPage
  | 0, _, lp => (0, 0, .exhausted, lp)
  | budget + 1, a, lp =>
    match fetch page a with
    | .noContent => (1, 0, .skipped204, lp)
    | .parsedOk v => (1, 0, .parsed v, .intVal v)
    | .httpFailed =>
      let rest := attemptLoop fetch page budget (a + 1) lp
      (rest.1 + 1, rest.2.1 + 1, rest.2.2)
    | .parseFailed =>
      let rest := attemptLoop fetch page budget (a + 1) .excVal
      (rest.1 + 1, rest.2.1 + 1, rest.2.2)

/-- One visited page of a task: the page number, the number of requests the
retry loop issued for it, and its result. -/
structure PageVisit where
  page : Nat
  requests : Nat
  result : PageResult
deriving DecidableEq

/-- How the page loop of one task ends: the while guard of line 264 found
page greater than the int page count and the method returned True; or the
guard compared the int page against a non-int last_page left by an exhausted
parse failure, raising a TypeError that aborts the whole task (the exception
decorator turns it into an exception object, a raiseExc outcome at the
progress-logger boundary); or the model's fuel ran out. -/
inductive RunEnd
  | finishedOk
  | abortedTypeError
  | outOfFuel
deriving DecidableEq

/-- The while loop of scraping_executor (lines 264-293), fuel-bounded because
a parsed page count can move the bound in either direction: evaluating the
guard against a non-int last_page raises the TypeError that aborts the task;
against an int count, while the page number does not exceed it, the retry
loop runs on the page, last_page is threaded through, and the loop moves to
the next page.  Returns the visits in order and how the loop ended. -/
def pageLoop (fetch : Nat → Nat → FetchOutcome) (maxRetries : Nat) :
    Nat → Nat → LastPage → List PageVisit × RunEnd
  | 0, _, _ => ([], .outOfFuel)
  | _ + 1, _, .excVal => ([], .abortedTypeError)
  | fuel + 1, page, .intVal n =>
    if (page : Int) ≤ n then
      let r := attemptLoop fetch page maxRetries 0 (.intVal n)
      let rest := pageLoop fetch maxRetries fuel (page + 1) r.2.2.2
      ({ page := page, requests := r.1, result := r.2.2.1 } :: rest.1, rest.2)
    else ([], .finishedOk)

/-- ProductsScraper.scraping_executor for one task (lines 241-296): pages are
visited from page 1 with the initial last_page of 2; the method returns True
when the while loop exits normally, and raises (aborting the task) when the
guard hits a non-int last_page. -/
def scraping_executor (fetch : Nat → Nat → FetchOutcome) (maxRetries fuel : Nat) :
    List PageVisit × RunEnd :=
  pageLoop fetch maxRetries fuel 1 (.intVal 2)

-- Claim C5.

/-- A transport whose page 1 answers 204 and whose later pages parse fine,
reporting a page count of 2. -/
def fetch204 : Nat → Nat → FetchOutcome :=
  fun page _ => if page = 1 then .noContent else .parsedOk 2

/-- Claim C5 counterexample: with fetch204, page 1 gets the no-more-content
status, yet the executor then requests page 2, a higher page number of the
same task, and completes normally: the 204 break only leaves the retry loop,
after which page is incremented and the while loop continues. -/
theorem page_after_204_still_requested :
    scraping_executor fetch204 max_retries 10 =
      ([{ page := 1, requests := 1, result := .skipped204 },
        { page := 2, requests := 1, result := .parsed 2 }], .finishedOk) ∧
    2 ∈ ((scraping_executor fetch204 max_retries 10).1.map PageVisit.page) := by
  decide

/-- Claim C5 (amended): a 204 response ends the retry attempts for the
current page immediately and without error, with exactly one request, no
backoff and the last_page variable untouched; the task then proceeds to the
next page with the last known page count unchanged, and pagination ends only
when the page number exceeds that count. -/
theorem no_content_skips_page_and_continues (fetch : Nat → Nat → FetchOutcome)
    (maxRetries fuel page : Nat) (n : Int) (lp : LastPage) (hm : 0 < maxRetries)
    (hle : (page : Int) ≤ n) (h204 : fetch page 0 = .noContent) :
    attemptLoop fetch page maxRetries 0 lp = (1, 0, .skipped204, lp) ∧
    pageLoop fetch maxRetries (fuel + 1) page (.intVal n) =
      ({ page := page, requests := 1, result := .skipped204 } ::
        (pageLoop fetch maxRetries fuel (page + 1) (.intVal n)).1,
       (pageLoop fetch maxRetries fuel (page + 1) (.intVal n)).2) := by
  obtain ⟨budget, rfl⟩ : ∃ b, maxRetries = b + 1 := by
    cases maxRetries with
    | zero => cases hm
    | succ b => exact ⟨b, rfl⟩
  have hat : ∀ lp2 : LastPage,
      attemptLoop fetch page (budget + 1) 0 lp2 = (1, 0, .skipped204, lp2) := by
    intro lp2
    simp [attemptLoop, h204]
  refine ⟨hat lp, ?_⟩
  simp only [pageLoop, if_pos hle, hat (.intVal n)]

/-- Claim C5 witness: the amended behaviour at the concrete 204 transport,
page 1 with last page 2 and a budget of 5. -/
theorem no_content_skips_page_and_continues_holds :
    attemptLoop fetch204 1 max_retries 0 (.intVal 2) = (1, 0, .skipped204, .intVal 2) ∧
    pageLoop fetch204 max_retries 10 1 (.intVal 2) =
      ({ page := 1, requests := 1, result := .skipped204 } ::
        (pageLoop fetch204 max_retries 9 2 (.intVal 2)).1,
       (pageLoop fetch204 max_retries 9 2 (.intVal 2)).2) :=
  no_content_skips_page_and_continues fetch204 max_retries 9 1 2 (.intVal 2)
    (by decide) (by decide) (by decide)

-- Claim C6.

/-- When every attempt with an index below the remaining budget fails before
the page-count assignment, the retry loop issues exactly one request per unit
of budget, backs off after every one of them, ends exhausted, and leaves
last_page untouched. -/
theorem attemptLoop_all_httpFailed (fetch : Nat → Nat → FetchOutcome)
    (page : Nat) (budget a : Nat) (lp : LastPage)
    (h : ∀ i, i < budget → fetch page (a + i) = .httpFailed) :
    attemptLoop fetch page budget a lp = (budget, budget, .exhausted, lp) := by
  induction budget generalizing a with
  | zero => rfl
  | succ b ih =>
    have h0 : fetch page a = .httpFailed := by
      have := h 0 (Nat.succ_pos b)
      simpa using this
    have hrest : attemptLoop fetch page b (a + 1) lp = (b, b, .exhausted, lp) := by
      refine ih (a + 1) ?_
      intro i hi
      have := h (i + 1) (Nat.succ_lt_succ hi)
      have harith : a + (i + 1) = a + 1 + i := by omega
      rw [harith] at this
      exact this
    simp [attemptLoop, h0, hrest]

/-- Once last_page already holds the non-int exception object, a budget of
failing attempts of either kind ends exhausted with last_page still the
non-int. -/
theorem attemptLoop_failed_from_excVal (fetch : Nat → Nat → FetchOutcome)
    (page : Nat) (budget a : Nat)
    (h : ∀ i, i < budget →
      fetch page (a + i) = .httpFailed ∨ fetch page (a + i) = .parseFailed) :
    attemptLoop fetch page budget a .excVal = (budget, budget, .exhausted, .excVal) := by
  induction budget generalizing a with
  | zero => rfl
  | succ b ih =>
    have hrest : attemptLoop fetch page b (a + 1) .excVal =
        (b, b, .exhausted, .excVal) := by
      refine ih (a + 1) ?_
      intro i hi
      have := h (i + 1) (Nat.succ_lt_succ hi)
      have harith : a + (i + 1) = a + 1 + i := by omega
      rw [harith] at this
      exact this
    have h0 := h 0 (Nat.succ_pos b)
    simp only [Nat.add_zero] at h0
    rcases h0 with h0 | h0
    · simp [attemptLoop, h0, hrest]
    · simp [attemptLoop, h0, hrest]

/-- A positive budget of attempts that all fail after the page-count
assignment (parse failures) ends exhausted with last_page clobbered to the
non-int exception object, whatever it held before. -/
theorem attemptLoop_all_parseFailed (fetch : Nat → Nat → FetchOutcome)
    (page : Nat) (budget a : Nat) (lp : LastPage) (hb : 0 < budget)
    (h : ∀ i, i < budget → fetch page (a + i) = .parseFailed) :
    attemptLoop fetch page budget a lp = (budget, budget, .exhausted, .excVal) := by
  obtain ⟨b, rfl⟩ : ∃ b, budget = b + 1 := by
    cases budget with
    | zero => cases hb
    | succ b => exact ⟨b, rfl⟩
  have h0 : fetch page a = .parseFailed := by
    have := h 0 (Nat.succ_pos b)
    simpa using this
  have hrest : attemptLoop fetch page b (a + 1) .excVal =
      (b, b, .exhausted, .excVal) := by
    refine attemptLoop_failed_from_excVal fetch page b (a + 1) ?_
    intro i hi
    have := h (i + 1) (Nat.succ_lt_succ hi)
    have harith : a + (i + 1) = a + 1 + i := by omega
    rw [harith] at this
    exact Or.inr this
  simp [attemptLoop, h0, hrest]

/-- A transport that fails every attempt on every page with a 200 response
whose payload defeats parse_product_data. -/
def fetchParseFailed : Nat → Nat → FetchOutcome := fun _ _ => .parseFailed

/-- Claim C6 counterexample: when page 1 fails all five attempts through
parse failures, the task does NOT proceed to page 2: line 279 left the
exception object in last_page, so after page += 1 the while guard of
line 264 raises a TypeError and the whole task aborts; page 2, although not
past the last known page count of 2, is never requested. -/
theorem parse_exhaustion_aborts_task :
    scraping_executor fetchParseFailed max_retries 10 =
      ([{ page := 1, requests := max_retries, result := .exhausted }],
        .abortedTypeError) ∧
    2 ∉ ((scraping_executor fetchParseFailed max_retries 10).1.map PageVisit.page) := by
  decide

/-- Claim C6 (amended): a page whose fetch-or-parse step fails on every
attempt is attempted exactly max_retries times, which defaults to 5, no more
and no fewer, with a backoff sleep after each failed attempt, and the page is
skipped (nothing parsed).  What happens next depends on where the failures
struck: if every failure came before the page-count assignment (non-200
status or body decode), last_page keeps its int value and the task proceeds
to the next page; but if the attempts failed in parse_product_data, line 279
stored a non-int in last_page and the next while-guard evaluation raises a
TypeError, aborting the whole task instead of proceeding. -/
theorem failing_page_retried_exactly_max_retries (fetch : Nat → Nat → FetchOutcome)
    (fuel page : Nat) (n : Int) (lp : LastPage) :
    max_retries = 5 ∧
    ((∀ a, a < max_retries → fetch page a = .httpFailed) →
      attemptLoop fetch page max_retries 0 lp =
        (max_retries, max_retries, .exhausted, lp)) ∧
    ((∀ a, a < max_retries → fetch page a = .parseFailed) →
      attemptLoop fetch page max_retries 0 lp =
        (max_retries, max_retries, .exhausted, .excVal)) ∧
    ((page : Int) ≤ n → (∀ a, a < max_retries → fetch page a = .httpFailed) →
      pageLoop fetch max_retries (fuel + 1) page (.intVal n) =
        ({ page := page, requests := max_retries, result := .exhausted } ::
          (pageLoop fetch max_retries fuel (page + 1) (.intVal n)).1,
         (pageLoop fetch max_retries fuel (page + 1) (.intVal n)).2)) ∧
    ((page : Int) ≤ n → (∀ a, a < max_retries → fetch page a = .parseFailed) →
      pageLoop fetch max_retries (fuel + 2) page (.intVal n) =
        ([{ page := page, requests := max_retries, result := .exhausted }],
          .abortedTypeError)) := by
  have hhttp : ∀ lp2 : LastPage, (∀ a, a < max_retries → fetch page a = .httpFailed) →
      attemptLoop fetch page max_retries 0 lp2 =
        (max_retries, max_retries, .exhausted, lp2) := by
    intro lp2 hf
    refine attemptLoop_all_httpFailed fetch page max_retries 0 lp2 ?_
    intro i hi
    have := hf i hi
    simpa using this
  have hparse : ∀ lp2 : LastPage, (∀ a, a < max_retries → fetch page a = .parseFailed) →
      attemptLoop fetch page max_retries 0 lp2 =
        (max_retries, max_retries, .exhausted, .excVal) := by
    intro lp2 hf
    refine attemptLoop_all_parseFailed fetch page max_retries 0 lp2 (by decide) ?_
    intro i hi
    have := hf i hi
    simpa using this
  refine ⟨rfl, hhttp lp, hparse lp, ?_, ?_⟩
  · intro hle hf
    simp only [pageLoop, if_pos hle, hhttp (.intVal n) hf]
  · intro hle hf
    simp only [pageLoop, if_pos hle, hparse (.intVal n) hf]

/-- Claim C6 witness: the always-parse-failing transport at page 1 with last
page 2: exactly 5 requests with 5 backoffs, the page exhausted, and the task
aborted by the TypeError instead of reaching page 2; the retry-count parts
are instantiated at the same transport. -/
theorem failing_page_retried_exactly_max_retries_holds :
    max_retries = 5 ∧
    ((∀ a, a < max_retries → fetchParseFailed 1 a = .httpFailed) →
      attemptLoop fetchParseFailed 1 max_retries 0 (.intVal 2) =
        (max_retries, max_retries, .exhausted, .intVal 2)) ∧
    ((∀ a, a < max_retries → fetchParseFailed 1 a = .parseFailed) →
      attemptLoop fetchParseFailed 1 max_retries 0 (.intVal 2) =
        (max_retries, max_retries, .exhausted, .excVal)) ∧
    (((1 : Nat) : Int) ≤ 2 → (∀ a, a < max_retries → fetchParseFailed 1 a = .httpFailed) →
      pageLoop fetchParseFailed max_retries 4 1 (.intVal 2) =
        ({ page := 1, requests := max_retries, result := .exhausted } ::
          (pageLoop fetchParseFailed max_retries 3 2 (.intVal 2)).1,
         (pageLoop fetchParseFailed max_retries 3 2 (.intVal 2)).2)) ∧
    (((1 : Nat) : Int) ≤ 2 → (∀ a, a < max_retries → fetchParseFailed 1 a = .parseFailed) →
      pageLoop fetchParseFailed max_retries 5 1 (.intVal 2) =
        ([{ page := 1, requests := max_retries, result := .exhausted }],
          .abortedTypeError)) :=
  failing_page_retried_exactly_max_retries fetchParseFailed 3 1 2 (.intVal 2)

-- The product parser ProductsScraper.parse_product_data.

/-- The id field of one product entry in a page payload, as int() sees it:
absent (the .get default 0 applies), convertible to the integer n, or not
convertible (int() raises and the except branch skips the entry). -/
inductive IdField
  | missing
  | intLike (n : Int)
  | malformed
deriving DecidableEq

/-- One product entry of a page payload: its id field, whether its
parent_info sub-object is present (when absent, the .get call on None raises
and the except branch skips the entry), and an abstract payload standing for
all other extracted fields. -/
structure ProductEntry where
  idField : IdField
  parentInfoPresent : Bool
  payload : Nat
deriving DecidableEq

/-- The evaluation of int(product.get('id', 0)) in parse_product_data
(products_scraper.py line 156): a missing id falls back to 0, a convertible
one yields its integer value, and a non-convertible one raises, modelled as
none. -/
def parseProductId : IdField → Option Int
  | .missing => some 0
  | .intLike n => some n
  | .malformed => none

/-- The product loop of parse_product_data (lines 154-235): an entry whose id
raises is skipped by the except branch, an entry whose id is 0 is skipped by
the falsiness guard of line 158, an entry whose parent_info is absent raises
at line 205 and is skipped, and every other entry is enqueued as a record
keyed by its id. -/
def parseProducts : List ProductEntry → List ProdRec
  | [] => []
  | p :: ps =>
    match parseProductId p.idField with
    | none => parseProducts ps
    | some n =>
      if n = 0 then parseProducts ps
      else if p.parentInfoPresent then
        { product_id := n, payload := p.payload } :: parseProducts ps
      else parseProducts ps

/-- A page payload as parse_product_data reads it: the product_info of the
first tab, absent when the guard of lines 147-149 returns False, else the
number_of_pages value and the product entries. -/
structure PageData where
  productInfo : Option (Int × List ProductEntry)

/-- ProductsScraper.parse_product_data (lines 138-237): False (modelled none)
when product_info is missing, else the page count together with the records
enqueued on the result queue. -/
def parse_product_data (d : PageData) : Option (Int × List ProdRec) :=
  match d.productInfo with
  | none => none
  | some (cnt, ps) => some (cnt, parseProducts ps)

/-- Every record the product loop enqueues has a nonzero key. -/
theorem parseProducts_key_nonzero (ps : List ProductEntry) :
    ∀ r ∈ parseProducts ps, r.product_id ≠ 0 := by
  induction ps with
  | nil => intro r hr; cases hr
  | cons p ps ih =>
    intro r hr
    simp only [parseProducts] at hr
    rcases hid : parseProductId p.idField with _ | n
    · rw [hid] at hr
      exact ih r hr
    · rw [hid] at hr
      have hr2 : r ∈ (if n = 0 then parseProducts ps
          else if p.parentInfoPresent = true then
            ({ product_id := n, payload := p.payload } : ProdRec) :: parseProducts ps
          else parseProducts ps) := hr
      by_cases hz : n = 0
      · rw [if_pos hz] at hr2
        exact ih r hr2
      · rw [if_neg hz] at hr2
        by_cases hpi : p.parentInfoPresent = true
        · rw [if_pos hpi] at hr2
          rcases List.mem_cons.mp hr2 with rfl | hr3
          · exact hz
          · exact ih r hr3
        · rw [if_neg hpi] at hr2
          exact ih r hr2

-- Claim C10.

/-- Claim C10: whenever parse_product_data accepts a page payload, every
record it enqueues on the result queue carries a nonzero product_id, and an
entry whose id is missing, zero, or not convertible to an integer contributes
no record: the parse output for such an entry is the parse output of the
remaining entries. -/
theorem enqueued_records_have_nonzero_key (d : PageData) (cnt : Int)
    (recs : List ProdRec) (h : parse_product_data d = some (cnt, recs)) :
    (∀ r ∈ recs, r.product_id ≠ 0) ∧
    (∀ p ps, (parseProductId p.idField = none ∨ parseProductId p.idField = some 0) →
      parseProducts (p :: ps) = parseProducts ps) := by
  constructor
  · rcases d with ⟨info⟩
    rcases info with _ | ⟨c, ps⟩
    · cases h
    · simp only [parse_product_data] at h
      rcases h with ⟨rfl, rfl⟩
      exact parseProducts_key_nonzero ps
  · intro p ps hskip
    rcases hskip with hnone | hzero
    · simp [parseProducts, hnone]
    · simp [parseProducts, hzero]

/-- Claim C10 witness: a payload with one good entry, one missing id, one
zero id and one malformed id yields exactly the one good record, whose key
is nonzero. -/
theorem enqueued_records_have_nonzero_key_holds :
    (∀ r ∈ [({ product_id := 5, payload := 0 } : ProdRec)], r.product_id ≠ 0) ∧
    (∀ p ps, (parseProductId p.idField = none ∨ parseProductId p.idField = some 0) →
      parseProducts (p :: ps) = parseProducts ps) :=
  enqueued_records_have_nonzero_key
    { productInfo := some (3,
        [{ idField := .intLike 5, parentInfoPresent := true, payload := 0 },
         { idField := .missing, parentInfoPresent := true, payload := 1 },
         { idField := .intLike 0, parentInfoPresent := true, payload := 2 },
         { idField := .malformed, parentInfoPresent := true, payload := 3 }]) }
    3 [{ product_id := 5, payload := 0 }] (by decide)
